import Mathlib

/-
  Verification of the quant-estate crawling/storage/normalization core.

  Shallow embedding of the behaviourally relevant functions of the repository:
  the Immobiliare listing mapper (sources/mappers/immobiliare_listing_mapper.py
  with its label tables from sources/mappers/immobiliare_enum_mapper.py), the
  id scraper (sources/scrapers/immobiliare/scraper_ids.py), the listing scraper
  parsers (sources/scrapers/immobiliare/scraper_listing.py), the pacing and
  scrolling helpers (sources/scrapers/selenium_scraper.py), the two storage
  backends (sources/storage/mongo_storage.py and file_storage.py), and the
  ListingId data object (sources/datamodel/listing_id.py).

  Python strings are modelled as Lean String; Python floats appearing in the
  claims are modelled as rationals; datetimes are modelled as opaque naturals;
  random draws are modelled as an explicit stream of rationals in [0, 1];
  exceptions are modelled with Except; functions that cannot raise are total.
-/

namespace QuantEstate

/-- Python str.strip: drop whitespace from both ends. -/
def pyStrip (s : String) : String :=
  String.mk (((s.data.dropWhile Char.isWhitespace).reverse.dropWhile
    Char.isWhitespace).reverse)

/-- Python str.lower, restricted to ASCII case folding (every non-ASCII
character occurring in the label tables of this repository is already
lowercase, so this agrees with Python on all inputs the code compares). -/
def pyLower (s : String) : String :=
  String.mk (s.data.map Char.toLower)

/-- Check whether the second list is a leading segment of the first. -/
def listStartsWith : List Char → List Char → Bool
  | _, [] => true
  | [], _ :: _ => false
  | a :: as, b :: bs => a = b && listStartsWith as bs

/-- Substring search on character lists: needle occurs somewhere in haystack. -/
def listContainsSub : List Char → List Char → Bool
  | [], needle => needle.isEmpty
  | c :: t, needle => listStartsWith (c :: t) needle || listContainsSub t needle

/-- Python membership test on strings: needle in haystack. -/
def strContains (haystack needle : String) : Bool :=
  listContainsSub haystack.data needle.data

/-- Python str.endswith for a single string suffix. -/
def strEndsWith (s suff : String) : Bool :=
  listStartsWith s.data.reverse suff.data.reverse

/-- Split a character list on every occurrence of a separator character,
keeping empty segments, as Python str.split with a one-character separator. -/
def splitOnCharAux (sep : Char) : List Char → List Char → List (List Char)
  | [], acc => [acc.reverse]
  | c :: t, acc =>
    if c = sep then acc.reverse :: splitOnCharAux sep t []
    else splitOnCharAux sep t (c :: acc)

/-- Python str.split with a one-character separator. -/
def strSplitOnChar (sep : Char) (s : String) : List String :=
  (splitOnCharAux sep s.data []).map String.mk

/-- Maximal runs of consecutive decimal digits, left to right: the matches of
the regular expression for one-or-more digits, as used by re.findall. -/
def digitRunsAux : List Char → List Char → List (List Char)
  | [], acc => if acc.isEmpty then [] else [acc.reverse]
  | c :: t, acc =>
    if c.isDigit then digitRunsAux t (c :: acc)
    else if acc.isEmpty then digitRunsAux t []
    else acc.reverse :: digitRunsAux t []

/-- All maximal digit runs of a string, in order. -/
def digitRuns (s : String) : List (List Char) :=
  digitRunsAux s.data []

/-- Numeric value of a list of decimal digit characters. -/
def natOfDigits (ds : List Char) : Nat :=
  ds.foldl (fun n c => 10 * n + (c.toNat - 48)) 0

/-- First-match lookup in an association list by exact key equality, the model
of a Python dict .get for the insertion-ordered literal dicts of the source. -/
def lookupStr {α : Type} (m : List (String × α)) (k : String) : Option α :=
  (m.find? (fun p => p.1 == k)).map Prod.snd

/- ### Enumerations (sources/datamodel/enumerations.py) -/

/-- ContractType enum. -/
inductive ContractType where
  | SALE
  | RENT
  deriving DecidableEq, Repr

/-- CurrentAvailability enum. -/
inductive CurrentAvailability where
  | AVAILABLE
  | OCCUPIED
  deriving DecidableEq, Repr

/-- OwnershipType enum. SURFACE_RIGHT is referenced by the ownership label
table of the enum mapper module and is included so that table can be embedded
as written. -/
inductive OwnershipType where
  | FULL_OWNERSHIP
  | BARE_OWNERSHIP
  | SURFACE_RIGHT
  deriving DecidableEq, Repr

/-- PropertyClass enum. -/
inductive PropertyClass where
  | LUXURY
  | MEDIUM
  | ECONOMIC
  | HIGH_END_LUXURY
  deriving DecidableEq, Repr

/-- PropertyType enum. -/
inductive PropertyType where
  | APARTMENT
  | PENTHOUSE
  | LOFT
  | SEMI_DETACHED_VILLA
  | ATTIC
  | DETACHED_VILLA
  | OPEN_SPACE
  | TERRACED_HOUSE
  | TOWNHOUSE
  | VILLA_APARTMENT
  | MULTI_FAMILY_VILLA
  | RUSTIC_HOUSE
  deriving DecidableEq, Repr

/-- TvSystem enum. -/
inductive TvSystem where
  | CENTRALIZED
  | SATELLITE
  | INDIVIDUAL
  deriving DecidableEq, Repr

/-- WindowGlassType enum. -/
inductive WindowGlassType where
  | SINGLE_GLASS
  | DOUBLE_GLASS
  | TRIPLE_GLASS
  deriving DecidableEq, Repr

/-- WindowMaterial enum. -/
inductive WindowMaterial where
  | WOOD
  | METAL
  | PVC
  deriving DecidableEq, Repr

/- ### Label tables (sources/mappers/immobiliare_enum_mapper.py) -/

/-- Italian contract labels to ContractType. -/
def IMM_CONTRACT_TYPE_MAP : List (String × ContractType) :=
  [("Vendita", ContractType.SALE), ("Affitto", ContractType.RENT)]

/-- Italian ownership labels to OwnershipType. -/
def IMM_OWNERSHIP_MAP : List (String × OwnershipType) :=
  [("Intera proprietà", OwnershipType.FULL_OWNERSHIP),
   ("Nuda proprietà", OwnershipType.BARE_OWNERSHIP),
   ("Diritto di superficie", OwnershipType.SURFACE_RIGHT)]

/-- Italian property-class labels to PropertyClass. -/
def IMM_PROPERTY_CLASS_MAP : List (String × PropertyClass) :=
  [("Classe immobile signorile", PropertyClass.LUXURY),
   ("Classe immobile media", PropertyClass.MEDIUM),
   ("Classe immobile economica", PropertyClass.ECONOMIC),
   ("Immobile di lusso", PropertyClass.HIGH_END_LUXURY)]

/-- Italian property-type labels to PropertyType. -/
def IMM_PROPERTY_TYPE_MAP : List (String × PropertyType) :=
  [("Appartamento", PropertyType.APARTMENT),
   ("Attico", PropertyType.PENTHOUSE),
   ("Loft", PropertyType.LOFT),
   ("Villa bifamiliare", PropertyType.SEMI_DETACHED_VILLA),
   ("Mansarda", PropertyType.ATTIC),
   ("Villa unifamiliare", PropertyType.DETACHED_VILLA),
   ("Open space", PropertyType.OPEN_SPACE),
   ("Terratetto unifamiliare", PropertyType.TERRACED_HOUSE),
   ("Villa a schiera", PropertyType.TOWNHOUSE),
   ("Appartamento in villa", PropertyType.VILLA_APARTMENT),
   ("Villa plurifamiliare", PropertyType.MULTI_FAMILY_VILLA),
   ("Rustico", PropertyType.RUSTIC_HOUSE)]

/-- Italian TV-system labels to TvSystem. -/
def IMM_TV_SYSTEM_MAP : List (String × TvSystem) :=
  [("Impianto tv centralizzato", TvSystem.CENTRALIZED),
   ("Impianto tv con parabola satellitare", TvSystem.SATELLITE),
   ("Impianto tv singolo", TvSystem.INDIVIDUAL)]

/-- Window-material labels to WindowMaterial. -/
def IMM_WINDOW_MATERIAL_MAP : List (String × WindowMaterial) :=
  [("legno", WindowMaterial.WOOD),
   ("metallo", WindowMaterial.METAL),
   ("PVC", WindowMaterial.PVC)]

/-- Modelled from the spec: IMM_WINDOW_GLASS_MAP is imported and iterated by
the listing mapper but its definition is missing from the enum mapper module
in src. The spec requires a badge containing the double-glass label to
resolve to DOUBLE_GLASS under first-match substring containment, so the
specific two-word labels precede the generic single-word label. -/
def IMM_WINDOW_GLASS_MAP : List (String × WindowGlassType) :=
  [("doppio vetro", WindowGlassType.DOUBLE_GLASS),
   ("triplo vetro", WindowGlassType.TRIPLE_GLASS),
   ("vetro", WindowGlassType.SINGLE_GLASS)]

/- ### Mapper (sources/mappers/immobiliare_listing_mapper.py) -/

/-- ListingDataTransformer parse of composite fields with the pipe separator:
split, strip each part, keep nonempty parts. The empty-input guard mirrors
the source check that returns an empty list for blank input. -/
def parse_composite_field (s : String) : List String :=
  if pyStrip s = "" then []
  else ((strSplitOnChar '|' s).map pyStrip).filter (fun p => p ≠ "")

/-- ListingDataTransformer parse of an enumeration-valued field: strip, exact
lookup in the label table, then a case-insensitive second pass over the table
in order; unresolved values give none (logged, non-fatal in the source). -/
def parse_enumeration_field {α : Type} (v : String) (m : List (String × α)) :
    Option α :=
  if pyStrip v = "" then none
  else
    let raw := pyStrip v
    match lookupStr m raw with
    | some x => some x
    | none => ((m.find? (fun p => pyLower p.1 == pyLower raw)).map Prod.snd)

/-- ListingDataTransformer parse of the composite type field: first segment
must resolve to a property type (else ValueError); one extra segment is tried
as ownership type and, failing that, as property class; with two or more
extra segments the second is ownership and the third is property class. -/
def parse_type_field (s : String) :
    Except String (PropertyType × Option OwnershipType × Option PropertyClass) :=
  match parse_composite_field s with
  | [] => Except.error ("Field type is empty or invalid: [" ++ s ++ "]")
  | p0 :: rest =>
    match parse_enumeration_field p0 IMM_PROPERTY_TYPE_MAP with
    | none => Except.error ("Unknown property type in field type: [" ++ p0 ++ "]")
    | some pt =>
      match rest with
      | [] => Except.ok (pt, none, none)
      | [p1] =>
        match parse_enumeration_field p1 IMM_OWNERSHIP_MAP with
        | none => Except.ok (pt, none, parse_enumeration_field p1 IMM_PROPERTY_CLASS_MAP)
        | some o => Except.ok (pt, some o, none)
      | p1 :: p2 :: _ =>
        Except.ok (pt, parse_enumeration_field p1 IMM_OWNERSHIP_MAP,
          parse_enumeration_field p2 IMM_PROPERTY_CLASS_MAP)

/-- ListingDataTransformer parse of the contract field: empty input raises;
otherwise the stripped label is looked up exactly in the contract table, then
its lowercased form is looked up; no match raises ValueError. -/
def parse_contract_field (s : String) : Except String ContractType :=
  if s = "" then Except.error ("Field contract is empty or missing")
  else
    let label := pyStrip s
    match lookupStr IMM_CONTRACT_TYPE_MAP label with
    | some v => Except.ok v
    | none =>
      match lookupStr IMM_CONTRACT_TYPE_MAP (pyLower label) with
      | some v => Except.ok v
      | none => Except.error ("Unknown contract type: [" ++ s ++ "]")

/-- OtherFeatures value object (sources/datamodel/listing_record.py): all
fields optional, absent unless detected in the amenity text. -/
structure OtherFeatures where
  has_built_in_wardrobe : Option Bool := none
  has_fireplace : Option Bool := none
  has_tennis_court : Option Bool := none
  has_electric_gate : Option Bool := none
  has_kitchen : Option Bool := none
  has_fiber_optic : Option Bool := none
  has_private_or_shared_garden : Option Bool := none
  has_hot_tub : Option Bool := none
  has_alarm_system : Option Bool := none
  has_attic : Option Bool := none
  has_pool : Option Bool := none
  has_armored_door : Option Bool := none
  has_reception : Option Bool := none
  has_tavern : Option Bool := none
  has_video_intercom : Option Bool := none
  tv_system : Option TvSystem := none
  window_glass_type : Option WindowGlassType := none
  window_material : Option WindowMaterial := none
  sun_exposure : Option String := none
  deriving DecidableEq, Repr

/-- True when no field of the accumulator has been set: the model of the
emptiness test on the amenity dict before OtherFeatures construction (every
rule of the mapper stores a non-null value, so dict emptiness coincides with
all fields still being absent). -/
def OtherFeatures.isEmpty (x : OtherFeatures) : Bool :=
  x.has_built_in_wardrobe.isNone && x.has_fireplace.isNone &&
  x.has_tennis_court.isNone && x.has_electric_gate.isNone &&
  x.has_kitchen.isNone && x.has_fiber_optic.isNone &&
  x.has_private_or_shared_garden.isNone && x.has_hot_tub.isNone &&
  x.has_alarm_system.isNone && x.has_attic.isNone && x.has_pool.isNone &&
  x.has_armored_door.isNone && x.has_reception.isNone &&
  x.has_tavern.isNone && x.has_video_intercom.isNone &&
  x.tv_system.isNone && x.window_glass_type.isNone &&
  x.window_material.isNone && x.sun_exposure.isNone

/-- Direct amenity table of the transformer: an exact badge match sets the
corresponding boolean field, any other badge leaves the record unchanged. -/
def applyAmenityFlag (acc : OtherFeatures) (v : String) : OtherFeatures :=
  if v = "Armadio a muro" then { acc with has_built_in_wardrobe := some true }
  else if v = "Caminetto" then { acc with has_fireplace := some true }
  else if v = "Campo da tennis" then { acc with has_tennis_court := some true }
  else if v = "Cancello elettrico" then { acc with has_electric_gate := some true }
  else if v = "Cucina" then { acc with has_kitchen := some true }
  else if v = "Fibra ottica" then { acc with has_fiber_optic := some true }
  else if v = "Giardino privato e comune" then { acc with has_private_or_shared_garden := some true }
  else if v = "Idromassaggio" then { acc with has_hot_tub := some true }
  else if v = "Impianto di allarme" then { acc with has_alarm_system := some true }
  else if v = "Mansarda" then { acc with has_attic := some true }
  else if v = "Piscina" then { acc with has_pool := some true }
  else if v = "Porta blindata" then { acc with has_armored_door := some true }
  else if v = "Reception" then { acc with has_reception := some true }
  else if v = "Taverna" then { acc with has_tavern := some true }
  else if v = "VideoCitofono" then { acc with has_video_intercom := some true }
  else acc

/-- ListingDataTransformer composite-amenity pass: first table entry whose
glass label occurs in the lowercased badge sets the glass type; first
material label (lowercased) occurring in the lowercased badge sets the
material; first TV label occurring in the raw badge sets the TV system; a
badge mentioning the exposure marker stores the raw badge as sun exposure. -/
def parse_composite_amenity (v : String) (acc : OtherFeatures) : OtherFeatures :=
  let lower := pyLower v
  let acc1 :=
    match IMM_WINDOW_GLASS_MAP.find? (fun p => strContains lower p.1) with
    | some p => { acc with window_glass_type := some p.2 }
    | none => acc
  let acc2 :=
    match IMM_WINDOW_MATERIAL_MAP.find? (fun p => strContains lower (pyLower p.1)) with
    | some p => { acc1 with window_material := some p.2 }
    | none => acc1
  let acc3 :=
    match IMM_TV_SYSTEM_MAP.find? (fun p => strContains v p.1) with
    | some p => { acc2 with tv_system := some p.2 }
    | none => acc2
  if strContains lower "esposizione" then { acc3 with sun_exposure := some v }
  else acc3

/-- One badge of the amenity loop: strip, skip blank badges, apply the direct
table, then the composite-amenity pass. -/
def mapBadge (acc : OtherFeatures) (f : String) : OtherFeatures :=
  let v := pyStrip f
  if v = "" then acc
  else parse_composite_amenity v (applyAmenityFlag acc v)

/-- ListingDataTransformer amenity mapping: empty badge list gives none; a
fold over the badges builds the accumulator; if nothing resolved the result
is none, otherwise the assembled OtherFeatures. -/
def map_other_features (features : List String) : Option OtherFeatures :=
  if features = [] then none
  else
    let acc := features.foldl mapBadge {}
    if acc.isEmpty then none else some acc

/-- The fields of ListingDetails consumed by the embedded part of the map. -/
structure ListingDetailsFrag where
  type : String
  contract : String
  other_features : Option (List String)

/-- The fields of ListingRecord produced by the embedded part of the map. -/
structure ListingRecordFrag where
  property_type : PropertyType
  ownership_type : Option OwnershipType
  property_class : Option PropertyClass
  contract_type : ContractType
  is_rent_to_own_available : Bool
  current_availability : CurrentAvailability
  other_features : Option OtherFeatures
  deriving DecidableEq, Repr

/-- ListingDataTransformer map, restricted to the fields the claims are
about: the type field is decomposed (raising on failure), the contract field
is parsed (raising on failure), the amenity badges are folded, and the record
is assembled with the literal constants false and AVAILABLE for the
rent-to-own flag and the current availability, exactly as in the source; all
remaining record fields are verbatim copies of raw fields and are omitted. -/
def map_listing (l : ListingDetailsFrag) : Except String ListingRecordFrag :=
  match parse_type_field l.type with
  | Except.error e => Except.error e
  | Except.ok (pt, ot, pc) =>
    match parse_contract_field l.contract with
    | Except.error e => Except.error e
    | Except.ok ct =>
      Except.ok
        { property_type := pt
          ownership_type := ot
          property_class := pc
          contract_type := ct
          is_rent_to_own_available := false
          current_availability := CurrentAvailability.AVAILABLE
          other_features := map_other_features ((l.other_features).getD []) }

/- ### Listing scraper parsers (sources/scrapers/immobiliare/scraper_listing.py) -/

/-- ImmobiliareListingScraper surface parser: empty input gives none; the
first maximal digit run of the string, if any, is converted to a float;
a string with no digits gives none. The except branch of the source can
never fire, because converting a nonempty digit run to float cannot raise,
so the function is total and never raises. -/
def parse_surface (s : String) : Option ℚ :=
  if s = "" then none
  else
    match digitRuns s with
    | [] => none
    | d :: _ => some ((natOfDigits d : ℚ))

/- ### Id scraper (sources/scrapers/immobiliare/scraper_ids.py) -/

/-- ImmobiliareIdScraper listing-id extraction: the stripped URL must end in
the listing path segment followed by one or more digits and at most one
trailing slash; the digits are returned. This is the anchored regular
expression of the source: after fixing the end of the string and consuming
the optional final slash, the captured group is exactly the maximal digit
suffix, which must be nonempty and be preceded by the annunci path segment. -/
def extract_listing_id (url : String) : Option String :=
  let s := pyStrip url
  let t := if strEndsWith s "/" then String.mk (s.data.dropLast) else s
  let ds := (t.data.reverse.takeWhile Char.isDigit).reverse
  if ds.isEmpty then none
  else
    let p := String.mk (t.data.take (t.data.length - ds.length))
    if strEndsWith p "/annunci/" then some (String.mk ds) else none

/- ### Storage backends (sources/storage/mongo_storage.py, file_storage.py) -/

/-- ListingId data object (sources/datamodel/listing_id.py). The datetime
field is modelled as an opaque natural. -/
structure ListingId where
  source : String
  source_id : String
  title : String
  url : String
  fetch_date : Option Nat
  deriving DecidableEq, Repr

/-- Computed id of a ListingId: source and source id joined by a colon. -/
def ListingId.id (l : ListingId) : String :=
  l.source ++ ":" ++ l.source_id

/-- MongoDB bulk insert with the unique index on id and ordered set to
false: items are attempted in order, an item whose id is already present
(in the collection or earlier in the batch) is skipped, and the count of
items that did insert is accumulated, as recovered from the bulk-write
failure detail. The collection is modelled by its list of stored ids. -/
def mongoInsertLoop : List String → List ListingId → List String × Nat
  | st, [] => (st, 0)
  | st, d :: ds =>
    if d.id ∈ st then mongoInsertLoop st ds
    else
      let r := mongoInsertLoop (st ++ [d.id]) ds
      (r.1, r.2 + 1)

/-- MongoDBStorage append: empty batches store nothing and report zero;
otherwise the bulk insert runs and the number of newly inserted documents is
returned. Duplicate keys are never an error: the function is total, and the
StorageError path of the source is reserved for connection and I/O failures,
which are outside this model. -/
def mongoAppend (st : List String) (data : List ListingId) : List String × Nat :=
  if data = [] then (st, 0) else mongoInsertLoop st data

/-- FileStorage append: empty batches report zero; otherwise all rows are
appended to the CSV file with no deduplication and the batch length is
returned. -/
def fileAppend (rows : List ListingId) (data : List ListingId) :
    List ListingId × Nat :=
  if data = [] then (rows, 0) else (rows ++ data, data.length)

/- ### ListingId dict round trip (sources/datamodel/listing_id.py) -/

/-- Dictionary shape exchanged with ListingId: every model field may be
present or absent, the computed id and the document-store id may be present,
and extra holds the names of any further keys (forbidden by the model
configuration). The fetch-date value itself is optional inside its key. -/
structure ListingIdDict where
  mongo_id : Option String := none
  id : Option String := none
  source : Option String := none
  source_id : Option String := none
  title : Option String := none
  url : Option String := none
  fetch_date : Option (Option Nat) := none
  extra : List String := []
  deriving DecidableEq, Repr

/-- Model dump of a ListingId: all declared fields plus the computed id;
no document-store key, no extra keys. -/
def ListingId.model_dump (x : ListingId) : ListingIdDict :=
  { id := some x.id
    source := some x.source
    source_id := some x.source_id
    title := some x.title
    url := some x.url
    fetch_date := some x.fetch_date }

/-- Default of the optional fetch-date field: the fixed timestamp captured
when the class body was evaluated, modelled as an opaque constant; the
concrete instant is irrelevant to the claims. -/
def defaultFetchDate : Option Nat := some 0

/-- Pydantic validation of a ListingId dict under the base model
configuration: unknown keys are forbidden (including the computed id and the
document-store key, which are not settable fields), the four string fields
are required and whitespace-stripped, and a missing fetch-date key takes the
field default. -/
def ListingId.model_validate (d : ListingIdDict) : Except String ListingId :=
  if d.mongo_id.isSome ∨ d.id.isSome ∨ d.extra ≠ [] then
    Except.error ("Extra inputs are not permitted")
  else
    match d.source, d.source_id, d.title, d.url with
    | some s, some si, some t, some u =>
      Except.ok
        { source := pyStrip s
          source_id := pyStrip si
          title := pyStrip t
          url := pyStrip u
          fetch_date := d.fetch_date.getD defaultFetchDate }
    | _, _, _, _ => Except.error ("Field required")

/-- ListingId.from_dict: remove the document-store key and the computed id
from the dictionary, then validate. -/
def ListingId.from_dict (d : ListingIdDict) : Except String ListingId :=
  ListingId.model_validate { d with mongo_id := none, id := none }

/- ### Index crawl loop (sources/scrapers/immobiliare/scraper_ids.py) -/

/-- The two limits of ScraperImmobiliareIdSettings driving the stop
conditions. -/
structure IdScraperSettings where
  listing_limit : Nat
  max_pages : Nat
  deriving DecidableEq, Repr

/-- Observable behaviour of one index page in a simulated run: the page
number parsed from the URL, how many listing identities were assembled and
flushed, how many of them the storage reported as newly inserted, and
whether a next-page control was found and clickable. -/
structure PageView where
  page_n : Nat
  listings : Nat
  inserted : Nat
  has_next : Bool
  deriving DecidableEq, Repr

/-- Why the crawl loop halted. -/
inductive StopReason where
  | limitReached
  | maxPagesReached
  | noNextPage
  deriving DecidableEq, Repr

/-- Outcome of a simulated crawl: accumulated totals, number of pages
processed, and the stop reason (none only when the simulated environment ran
out of pages before any stop condition held). -/
structure RunResult where
  total_listings : Nat
  total_inserted : Nat
  pages_visited : Nat
  stop : Option StopReason
  deriving DecidableEq, Repr

/-- ImmobiliareIdScraper scrape loop over a simulated page sequence: on each
page the identities are flushed and both totals updated, then the stop
conditions are checked in source order (listing limit on the accumulated
flushed count, maximum page number, missing next-page control); only when
all three fail does the loop navigate to the next page. -/
def scrapeLoop (s : IdScraperSettings) :
    List PageView → Nat → Nat → Nat → RunResult
  | [], tl, ti, k => ⟨tl, ti, k, none⟩
  | p :: rest, tl, ti, k =>
    let tl2 := tl + p.listings
    let ti2 := ti + p.inserted
    if s.listing_limit ≤ tl2 then ⟨tl2, ti2, k + 1, some StopReason.limitReached⟩
    else if s.max_pages ≤ p.page_n then ⟨tl2, ti2, k + 1, some StopReason.maxPagesReached⟩
    else if p.has_next = false then ⟨tl2, ti2, k + 1, some StopReason.noNextPage⟩
    else scrapeLoop s rest tl2 ti2 (k + 1)

/-- A full simulated run of the scrape loop from the initial state. -/
def scrape (s : IdScraperSettings) (pages : List PageView) : RunResult :=
  scrapeLoop s pages 0 0 0

/-- The stop conditions as the spec states them, applied to the accumulated
flushed count after a page and to that page, in the stated order. -/
def stopReasonAt (s : IdScraperSettings) (tl2 : Nat) (p : PageView) :
    Option StopReason :=
  if s.listing_limit ≤ tl2 then some StopReason.limitReached
  else if s.max_pages ≤ p.page_n then some StopReason.maxPagesReached
  else if p.has_next = false then some StopReason.noNextPage
  else none

/-- Accumulated count of flushed identities through page index i inclusive. -/
def storedThrough (pages : List PageView) (i : Nat) : Nat :=
  ((pages.take (i + 1)).map PageView.listings).sum

/-- Accumulated count of newly inserted identities through page index i. -/
def insertedThrough (pages : List PageView) (i : Nat) : Nat :=
  ((pages.take (i + 1)).map PageView.inserted).sum

/-- Total indexing into a simulated page sequence. -/
def pageAt (pages : List PageView) (i : Nat) : PageView :=
  pages.getD i ⟨0, 0, 0, false⟩

/- ### Pacing policy (sources/scrapers/selenium_scraper.py, realistic wait) -/

/-- The delay bounds of ScraperSettings, modelled as rationals. -/
structure PacingSettings where
  min_delay : ℚ
  max_delay : ℚ
  deriving DecidableEq, Repr

/-- One draw of random.uniform given the underlying unit draw r. -/
def uniformQ (a b r : ℚ) : ℚ :=
  a + (b - a) * r

/-- SeleniumScraper realistic wait, with the ambient global random stream
made explicit as the list of pending unit draws: the base delay consumes one
draw, the jitter one, the distraction check one, and a fourth draw is
consumed only when the check falls in the 5 percent branch. The produced
value is the slept delay together with the remaining ambient stream; none
means the modelled stream was exhausted. The source function takes no random
source argument: every draw comes from the module-level random generator. -/
def realistic_wait (s : PacingSettings) : List ℚ → Option (ℚ × List ℚ)
  | r1 :: r2 :: r3 :: rest =>
    let base_delay := uniformQ s.min_delay s.max_delay r1
    let jitter_delay := uniformQ (-(1 / 5)) (3 / 10) r2
    if 1 / 20 ≤ r3 then some (base_delay + jitter_delay + 0, rest)
    else
      match rest with
      | r4 :: rest2 => some (base_delay + jitter_delay + uniformQ 1 3 r4, rest2)
      | [] => none
  | _ => none

/- ### Scroll to bottom (sources/scrapers/selenium_scraper.py) -/

/-- SeleniumScraper scroll loop with the page modelled by its height
sequence h, where h i is the document height measured after the i-th scroll
(h 0 the initial measurement) and last the previously measured height: scroll,
wait, re-measure, and stop when the new measurement equals the previous one,
returning the number of scrolls issued. Fuel bounds the modelled unbounded
while loop; none means the fuel ran out before the height stabilized. -/
def scrollLoop (h : Nat → Nat) : Nat → Nat → Nat → Option Nat
  | 0, _, _ => none
  | fuel + 1, last, i =>
    if h i = last then some i
    else scrollLoop h fuel (h i) (i + 1)

/-- SeleniumScraper scroll to bottom: measure the initial height, then run
the scroll loop. -/
def scroll_to_bottom (h : Nat → Nat) (fuel : Nat) : Option Nat :=
  scrollLoop h fuel (h 0) 1

/-- Height sequence used to exercise the scroll loop on a page that grows
three times and then stabilizes. -/
def sampleHeights : Nat → Nat :=
  fun i => min i 3

/-- Concrete record produced by the amenity mapper from the single badge
naming the pool amenity. -/
def poolOnly : OtherFeatures :=
  { has_pool := some true }

/-- Simulated run stopped by the listing limit: three pages of three
listings each under a limit of five. -/
def pagesLimit : List PageView :=
  [⟨1, 3, 3, true⟩, ⟨2, 3, 3, true⟩, ⟨3, 3, 3, true⟩]

/-- Simulated run stopped by the page cap: same pages under a page cap of
two and a large listing limit. -/
def pagesMax : List PageView :=
  [⟨1, 3, 3, true⟩, ⟨2, 3, 3, true⟩, ⟨3, 3, 3, true⟩]

/-- Simulated run stopped by a missing next-page control on the second
page. -/
def pagesNoNext : List PageView :=
  [⟨1, 3, 3, true⟩, ⟨2, 3, 3, false⟩, ⟨3, 3, 3, true⟩]

/- ### Shared lemmas -/

/-- Flushed-count accumulator at the head page. -/
theorem storedThrough_zero (p : PageView) (rest : List PageView) :
    storedThrough (p :: rest) 0 = p.listings := by
  simp [storedThrough]

/-- Inserted-count accumulator at the head page. -/
theorem insertedThrough_zero (p : PageView) (rest : List PageView) :
    insertedThrough (p :: rest) 0 = p.inserted := by
  simp [insertedThrough]

/-- Flushed-count accumulator through a later page. -/
theorem storedThrough_cons (p : PageView) (rest : List PageView) (j : Nat) :
    storedThrough (p :: rest) (j + 1) = p.listings + storedThrough rest j := by
  simp [storedThrough]

/-- Inserted-count accumulator through a later page. -/
theorem insertedThrough_cons (p : PageView) (rest : List PageView) (j : Nat) :
    insertedThrough (p :: rest) (j + 1) = p.inserted + insertedThrough rest j := by
  simp [insertedThrough]

/-- Indexing past the head page. -/
theorem pageAt_cons_succ (p : PageView) (rest : List PageView) (j : Nat) :
    pageAt (p :: rest) (j + 1) = pageAt rest j := rfl

/-- Indexing the head page. -/
theorem pageAt_zero (p : PageView) (rest : List PageView) :
    pageAt (p :: rest) 0 = p := rfl

/-- The spec-side stop description yields none exactly when all three
conditions fail. -/
theorem stopReasonAt_eq_none_iff (s : IdScraperSettings) (tl2 : Nat) (p : PageView) :
    stopReasonAt s tl2 p = none ↔
      ¬ s.listing_limit ≤ tl2 ∧ ¬ s.max_pages ≤ p.page_n ∧ p.has_next = true := by
  unfold stopReasonAt
  split_ifs with h1 h2 h3 <;> simp_all

/-- Behaviour of the crawl loop at the first page index where a stop
condition holds, for an arbitrary start state: the loop processes exactly
the pages up to that index, accumulates both totals, and halts with the
first condition in evaluation order. -/
theorem scrapeLoop_halts (s : IdScraperSettings) :
    ∀ (pages : List PageView) (i tl ti k : Nat),
      i < pages.length →
      (∀ j, j < i → stopReasonAt s (tl + storedThrough pages j) (pageAt pages j) = none) →
      stopReasonAt s (tl + storedThrough pages i) (pageAt pages i) ≠ none →
      scrapeLoop s pages tl ti k =
        ⟨tl + storedThrough pages i, ti + insertedThrough pages i, k + i + 1,
         stopReasonAt s (tl + storedThrough pages i) (pageAt pages i)⟩ := by
  intro pages
  induction pages with
  | nil =>
    intro i tl ti k hi
    simp at hi
  | cons p rest ih =>
    intro i tl ti k hi hne hstop
    cases i with
    | zero =>
      rw [storedThrough_zero, insertedThrough_zero, pageAt_zero] at *
      simp only [scrapeLoop]
      by_cases h1 : s.listing_limit ≤ tl + p.listings
      · simp [stopReasonAt, h1]
      · by_cases h2 : s.max_pages ≤ p.page_n
        · simp [stopReasonAt, h1, h2]
        · by_cases h3 : p.has_next = false
          · simp [stopReasonAt, h1, h2, h3]
          · exact absurd ((stopReasonAt_eq_none_iff s _ p).mpr
              ⟨h1, h2, by simpa using h3⟩) hstop
    | succ j =>
      have h0 := hne 0 (Nat.succ_pos j)
      rw [storedThrough_zero, pageAt_zero] at h0
      obtain ⟨hc1, hc2, hc3⟩ := (stopReasonAt_eq_none_iff s _ p).mp h0
      simp only [scrapeLoop]
      rw [if_neg hc1, if_neg hc2, if_neg (by simp [hc3])]
      have hne2 : ∀ j2, j2 < j →
          stopReasonAt s (tl + p.listings + storedThrough rest j2) (pageAt rest j2) = none := by
        intro j2 hj2
        have := hne (j2 + 1) (by omega)
        rwa [storedThrough_cons, pageAt_cons_succ, ← Nat.add_assoc] at this
      have hstop2 : stopReasonAt s (tl + p.listings + storedThrough rest j) (pageAt rest j) ≠ none := by
        have := hstop
        rwa [storedThrough_cons, pageAt_cons_succ, ← Nat.add_assoc] at this
      have hrec := ih j (tl + p.listings) (ti + p.inserted) (k + 1)
        (by simpa using Nat.lt_of_succ_lt_succ hi) hne2 hstop2
      rw [hrec, storedThrough_cons, insertedThrough_cons, pageAt_cons_succ]
      simp [RunResult.mk.injEq]
      refine ⟨by omega, by omega, by omega, by rw [← Nat.add_assoc]⟩

/-- The scroll loop, started at measurement index i with the previous
measurement as last height, can only report the least index at or after i
where two consecutive measurements agree. -/
theorem scrollLoop_sound (h : Nat → Nat) :
    ∀ (fuel i n : Nat), 1 ≤ i →
      scrollLoop h fuel (h (i - 1)) i = some n →
      i ≤ n ∧ h n = h (n - 1) ∧ ∀ m, i ≤ m → m < n → h m ≠ h (m - 1) := by
  intro fuel
  induction fuel with
  | zero =>
    intro i n _ hrun
    simp [scrollLoop] at hrun
  | succ fuel ih =>
    intro i n hi hrun
    by_cases heq : h i = h (i - 1)
    · have hn : i = n := by simpa [scrollLoop, heq] using hrun
      subst hn
      exact ⟨le_refl _, heq, fun m hm1 hm2 => absurd (lt_of_le_of_lt hm1 hm2) (lt_irrefl _)⟩
    · have hrun2 : scrollLoop h fuel (h i) (i + 1) = some n := by
        simpa [scrollLoop, heq] using hrun
      have hrun3 : scrollLoop h fuel (h ((i + 1) - 1)) (i + 1) = some n := by
        simpa using hrun2
      obtain ⟨hn1, hn2, hn3⟩ := ih (i + 1) n (by omega) hrun3
      refine ⟨by omega, hn2, ?_⟩
      intro m hm1 hm2
      rcases Nat.eq_or_lt_of_le hm1 with hm | hm
      · subst hm
        exact heq
      · exact hn3 m (by omega) hm2

/-- The scroll loop halts within the available fuel whenever two consecutive
measurements agree somewhere inside the fuel window. -/
theorem scrollLoop_complete (h : Nat → Nat) :
    ∀ (fuel i : Nat), 1 ≤ i →
      (∃ j, i ≤ j ∧ j < i + fuel ∧ h j = h (j - 1)) →
      ∃ n, scrollLoop h fuel (h (i - 1)) i = some n := by
  intro fuel
  induction fuel with
  | zero =>
    intro i _ hex
    obtain ⟨j, hj1, hj2, _⟩ := hex
    omega
  | succ fuel ih =>
    intro i hi hex
    by_cases heq : h i = h (i - 1)
    · exact ⟨i, by simp [scrollLoop, heq]⟩
    · obtain ⟨j, hj1, hj2, hj3⟩ := hex
      have hji : j ≠ i := fun he => heq (he ▸ hj3)
      obtain ⟨n, hn⟩ := ih (i + 1) (by omega) ⟨j, by omega, by omega, hj3⟩
      refine ⟨n, ?_⟩
      simp only [scrollLoop, if_neg heq]
      simpa using hn

/-- Linear interpolation with a unit draw stays between its endpoints. -/
theorem uniformQ_mem (a b r : ℚ) (h0 : 0 ≤ r) (h1 : r ≤ 1) (hab : a ≤ b) :
    a ≤ uniformQ a b r ∧ uniformQ a b r ≤ b := by
  unfold uniformQ
  constructor
  · nlinarith
  · nlinarith

/- ### Claim theorems -/

/-- C1: appending the same batch of two fresh, distinct items twice to the
document-store sink reports 2 newly inserted on the first call and 0 on the
second, while the flat-file sink reports 2 both times; duplicate keys are
accounted for in the returned count, never raised (the append model is
total, with StorageError reserved for I/O failures outside the model). -/
theorem storage_append_dedup (st : List String) (rows : List ListingId)
    (a b : ListingId) (ha : a.id ∉ st) (hb : b.id ∉ st) (hab : a.id ≠ b.id) :
    (mongoAppend st [a, b]).2 = 2 ∧
    (mongoAppend (mongoAppend st [a, b]).1 [a, b]).2 = 0 ∧
    (fileAppend rows [a, b]).2 = 2 ∧
    (fileAppend (fileAppend rows [a, b]).1 [a, b]).2 = 2 := by
  have hba : b.id ≠ a.id := Ne.symm hab
  refine ⟨?_, ?_, ?_, ?_⟩
  · simp [mongoAppend, mongoInsertLoop, ha, hb, hba]
  · simp [mongoAppend, mongoInsertLoop, ha, hb, hba]
  · simp [fileAppend]
  · simp [fileAppend]

/-- C1 witness: the dedup accounting at two concrete fresh items over the
empty collection and an empty flat file. -/
theorem storage_append_dedup_witness :
    (mongoAppend []
      [⟨"immobiliare", "1", "t1", "u1", none⟩, ⟨"immobiliare", "2", "t2", "u2", none⟩]).2 = 2 ∧
    (mongoAppend (mongoAppend []
      [⟨"immobiliare", "1", "t1", "u1", none⟩, ⟨"immobiliare", "2", "t2", "u2", none⟩]).1
      [⟨"immobiliare", "1", "t1", "u1", none⟩, ⟨"immobiliare", "2", "t2", "u2", none⟩]).2 = 0 ∧
    (fileAppend []
      [⟨"immobiliare", "1", "t1", "u1", none⟩, ⟨"immobiliare", "2", "t2", "u2", none⟩]).2 = 2 ∧
    (fileAppend (fileAppend []
      [⟨"immobiliare", "1", "t1", "u1", none⟩, ⟨"immobiliare", "2", "t2", "u2", none⟩]).1
      [⟨"immobiliare", "1", "t1", "u1", none⟩, ⟨"immobiliare", "2", "t2", "u2", none⟩]).2 = 2 :=
  storage_append_dedup [] [] ⟨"immobiliare", "1", "t1", "u1", none⟩
    ⟨"immobiliare", "2", "t2", "u2", none⟩ (by decide) (by decide) (by decide)

/-- C2 counterexample: the contract parser matches labels exactly, not by
substring containment: the concrete contract string that contains both the
sale label and the rent-to-own marker is rejected with ValueError instead of
resolving to SALE, and the whole normalization of a listing carrying it
fails rather than producing a record. -/
theorem contract_containment_counterexample :
    strContains ("Vendita con riscatto") ("Vendita") = true ∧
    strContains ("Vendita con riscatto") ("riscatto") = true ∧
    parse_contract_field ("Vendita con riscatto") =
      Except.error ("Unknown contract type: [Vendita con riscatto]") ∧
    map_listing ⟨("Appartamento"), ("Vendita con riscatto"), none⟩ =
      Except.error ("Unknown contract type: [Vendita con riscatto]") :=
  ⟨rfl, rfl, rfl, rfl⟩

/-- C2 amended: the contract type is resolved by exact equality of the
stripped contract string against the label table (with a lowercased retry
that cannot match the capitalized labels of this table); a string that
merely contains a label raises ValueError; and the produced record always
carries the constants false for the rent-to-own flag and AVAILABLE for the
current availability: neither is derived from the contract string. -/
theorem contract_exact_match_and_constant_flags :
    parse_contract_field ("Vendita") = Except.ok ContractType.SALE ∧
    parse_contract_field ("Affitto") = Except.ok ContractType.RENT ∧
    parse_contract_field ("Vendita con riscatto") =
      Except.error ("Unknown contract type: [Vendita con riscatto]") ∧
    ∀ l r, map_listing l = Except.ok r →
      r.is_rent_to_own_available = false ∧
      r.current_availability = CurrentAvailability.AVAILABLE := by
  refine ⟨rfl, rfl, rfl, ?_⟩
  intro l r h
  unfold map_listing at h
  cases hpt : parse_type_field l.type with
  | error e =>
    rw [hpt] at h
    exact Except.noConfusion h
  | ok v =>
    obtain ⟨pt, ot, pc⟩ := v
    rw [hpt] at h
    cases hct : parse_contract_field l.contract with
    | error e =>
      rw [hct] at h
      exact Except.noConfusion h
    | ok ct =>
      rw [hct] at h
      injection h with h2
      rw [← h2]
      exact ⟨rfl, rfl⟩

/-- C2 amended witness: the constants of the produced record at a concrete
listing with a plain sale contract. -/
theorem contract_exact_match_and_constant_flags_witness :
    (ListingRecordFrag.is_rent_to_own_available
      ⟨PropertyType.APARTMENT, none, none, ContractType.SALE, false,
       CurrentAvailability.AVAILABLE, none⟩ = false) ∧
    (ListingRecordFrag.current_availability
      ⟨PropertyType.APARTMENT, none, none, ContractType.SALE, false,
       CurrentAvailability.AVAILABLE, none⟩ = CurrentAvailability.AVAILABLE) :=
  contract_exact_match_and_constant_flags.2.2.2
    ⟨("Appartamento"), ("Vendita"), none⟩
    ⟨PropertyType.APARTMENT, none, none, ContractType.SALE, false,
     CurrentAvailability.AVAILABLE, none⟩ rfl

/-- C3 counterexample: the surface parser takes the first maximal digit run,
so the unitless string is accepted with value 82 instead of raising, and the
decimal-comma string parses to 82, strictly below the 82.5 the claim
expects. -/
theorem parse_surface_counterexample :
    parse_surface ("82") = some 82 ∧
    parse_surface ("82,5 m²") = some 82 ∧
    (82 : ℚ) < 82.5 :=
  ⟨rfl, rfl, by norm_num⟩

/-- C3 amended: the surface parser maps the unit-suffixed string to 82.0,
also maps the unitless string to 82.0 without raising, maps the
decimal-comma string to 82.0 by keeping only the first digit run, and yields
none on empty or digit-free input. -/
theorem parse_surface_first_digit_run :
    parse_surface ("82 m²") = some 82 ∧
    parse_surface ("82") = some 82 ∧
    parse_surface ("82,5 m²") = some 82 ∧
    parse_surface ("") = none ∧
    parse_surface ("abc") = none :=
  ⟨rfl, rfl, rfl, rfl, rfl⟩

/-- C4: the pipe-delimited type field with three segments decomposes into
apartment, bare ownership, and medium class; the single-segment field
decomposes into apartment with both options absent; and every type string
whose first segment does not resolve to a property type is rejected with
ValueError naming that segment. -/
theorem type_field_decomposition :
    parse_type_field ("Appartamento|Nuda proprietà|Classe immobile media") =
      Except.ok (PropertyType.APARTMENT, some OwnershipType.BARE_OWNERSHIP,
        some PropertyClass.MEDIUM) ∧
    parse_type_field ("Appartamento") =
      Except.ok (PropertyType.APARTMENT, none, none) ∧
    ∀ s p0 rest, parse_composite_field s = p0 :: rest →
      parse_enumeration_field p0 IMM_PROPERTY_TYPE_MAP = none →
      parse_type_field s =
        Except.error ("Unknown property type in field type: [" ++ p0 ++ "]") := by
  refine ⟨rfl, rfl, ?_⟩
  intro s p0 rest h1 h2
  simp only [parse_type_field, h1, h2]

/-- C4 witness: a concrete type string with an unrecognized first segment is
rejected. -/
theorem type_field_decomposition_witness :
    parse_type_field ("Castello") =
      Except.error ("Unknown property type in field type: [" ++ "Castello" ++ "]") :=
  type_field_decomposition.2.2 ("Castello") ("Castello") [] rfl rfl

/-- C5: the index-crawl loop halts at the first page index where one of the
three stop conditions holds, with the conditions checked after the page is
flushed and evaluated in source order (flushed count at or above the
listing limit, page number at or above the page cap, next-page control
missing); the run processes exactly the pages up to that index, so the loop
never navigates once a condition holds; and each condition independently
halts a concrete simulated run at its expected page. -/
theorem index_crawl_stop_conditions :
    (∀ (s : IdScraperSettings) (pages : List PageView) (i : Nat),
      i < pages.length →
      (∀ j, j < i → stopReasonAt s (storedThrough pages j) (pageAt pages j) = none) →
      stopReasonAt s (storedThrough pages i) (pageAt pages i) ≠ none →
      scrape s pages =
        ⟨storedThrough pages i, insertedThrough pages i, i + 1,
         stopReasonAt s (storedThrough pages i) (pageAt pages i)⟩) ∧
    scrape ⟨5, 100⟩ pagesLimit = ⟨6, 6, 2, some StopReason.limitReached⟩ ∧
    scrape ⟨1000, 2⟩ pagesMax = ⟨6, 6, 2, some StopReason.maxPagesReached⟩ ∧
    scrape ⟨1000, 100⟩ pagesNoNext = ⟨6, 6, 2, some StopReason.noNextPage⟩ := by
  refine ⟨?_, by decide, by decide, by decide⟩
  intro s pages i hi hne hstop
  have hres := scrapeLoop_halts s pages i 0 0 0 hi (by simpa using hne) (by simpa using hstop)
  simpa [scrape] using hres

/-- C5 witness: the general halting theorem instantiated on the simulated
run stopped by the listing limit, at page index 1. -/
theorem index_crawl_stop_conditions_witness :
    scrape ⟨5, 100⟩ pagesLimit =
      ⟨storedThrough pagesLimit 1, insertedThrough pagesLimit 1, 1 + 1,
       stopReasonAt ⟨5, 100⟩ (storedThrough pagesLimit 1) (pageAt pagesLimit 1)⟩ :=
  index_crawl_stop_conditions.1 ⟨5, 100⟩ pagesLimit 1 (by decide) (by decide) (by decide)

/-- C6: the listing-id extractor returns the digits for a well-formed
listing URL, returns none when the id segment is not numeric, and treats
the trailing slash as optional. -/
theorem extract_listing_id_spec :
    extract_listing_id ("https://site/annunci/122361988/") = some ("122361988") ∧
    extract_listing_id ("https://site/annunci/abc/") = none ∧
    extract_listing_id ("https://site/annunci/122361988") =
      extract_listing_id ("https://site/annunci/122361988/") :=
  ⟨rfl, rfl, rfl⟩

/-- C7: the composite window badge resolves to double glass and PVC frames;
an unrecognized badge is dropped without raising (adding one leaves the
result unchanged); and the mapper never returns an empty OtherFeatures
object: when no badge resolved to anything the result is none. -/
theorem amenity_badge_mapping :
    map_other_features [("Infissi esterni in doppio vetro / PVC")] =
      some { window_glass_type := some WindowGlassType.DOUBLE_GLASS,
             window_material := some WindowMaterial.PVC } ∧
    map_other_features
        [("Infissi esterni in doppio vetro / PVC"), ("Trilocale panoramico")] =
      map_other_features [("Infissi esterni in doppio vetro / PVC")] ∧
    map_other_features [("Trilocale panoramico")] = none ∧
    ∀ fs x, map_other_features fs = some x → OtherFeatures.isEmpty x = false := by
  refine ⟨by decide, by decide, by decide, ?_⟩
  intro fs x h
  simp only [map_other_features] at h
  split at h
  · exact Option.noConfusion h
  · split at h
    · exact Option.noConfusion h
    · rename_i hne
      rw [Option.some.injEq] at h
      rw [← h]
      exact Bool.eq_false_iff.mpr hne

/-- C7 witness: the never-empty property instantiated on the badge list
holding the pool amenity. -/
theorem amenity_badge_mapping_witness :
    OtherFeatures.isEmpty poolOnly = false :=
  amenity_badge_mapping.2.2.2 [("Piscina")] poolOnly (by decide)

/-- C8 counterexample: with all injected inputs fixed (the same delay
settings), two states of the ambient global random stream produce two
different delays, 4/5 and 33/10, so the produced delay is a function of
ambient global randomness, not of an injected random source: the source
function accepts none. -/
theorem realistic_wait_ambient_counterexample :
    realistic_wait ⟨1, 3⟩ [0, 0, 1] = some (4 / 5, []) ∧
    realistic_wait ⟨1, 3⟩ [1, 1, 1] = some (33 / 10, []) ∧
    (4 : ℚ) / 5 < 33 / 10 := by
  refine ⟨?_, ?_, by norm_num⟩ <;> norm_num [realistic_wait, uniformQ]

/-- C8 amended: the wait sleeps uniform(min,max) plus a jitter drawn from
uniform(-0.2,0.3) plus, when the check draw falls below 5 percent, an
additional uniform(1.0,3.0) distraction pause; the draws come from the
ambient global random stream (the function takes no pluggable random
source), and under unit draws with ordered delay bounds the delay lies
between min - 0.2 and max + 0.3 + 3. -/
theorem realistic_wait_formula (s : PacingSettings) (r1 r2 r3 r4 : ℚ)
    (rest : List ℚ) (h10 : 0 ≤ r1) (h11 : r1 ≤ 1) (h20 : 0 ≤ r2) (h21 : r2 ≤ 1)
    (h40 : 0 ≤ r4) (h41 : r4 ≤ 1) (hmm : s.min_delay ≤ s.max_delay) :
    realistic_wait s (r1 :: r2 :: r3 :: r4 :: rest) =
      some (uniformQ s.min_delay s.max_delay r1 + uniformQ (-(1 / 5)) (3 / 10) r2 +
          (if 1 / 20 ≤ r3 then 0 else uniformQ 1 3 r4),
        if 1 / 20 ≤ r3 then r4 :: rest else rest) ∧
    s.min_delay - 1 / 5 ≤
      uniformQ s.min_delay s.max_delay r1 + uniformQ (-(1 / 5)) (3 / 10) r2 +
        (if 1 / 20 ≤ r3 then 0 else uniformQ 1 3 r4) ∧
    uniformQ s.min_delay s.max_delay r1 + uniformQ (-(1 / 5)) (3 / 10) r2 +
        (if 1 / 20 ≤ r3 then 0 else uniformQ 1 3 r4) ≤
      s.max_delay + 3 / 10 + 3 := by
  obtain ⟨hb1, hb2⟩ := uniformQ_mem s.min_delay s.max_delay r1 h10 h11 hmm
  obtain ⟨hj1, hj2⟩ := uniformQ_mem (-(1 / 5)) (3 / 10) r2 h20 h21 (by norm_num)
  obtain ⟨he1, he2⟩ := uniformQ_mem 1 3 r4 h40 h41 (by norm_num)
  refine ⟨?_, ?_, ?_⟩
  · simp only [realistic_wait]
    split_ifs with h3 <;> rfl
  · split_ifs with h3 <;> linarith
  · split_ifs with h3 <;> linarith

/-- C8 amended witness: the formula and bounds at concrete settings and
concrete ambient draws falling in the no-distraction branch. -/
theorem realistic_wait_formula_witness :
    realistic_wait ⟨1, 3⟩ [0, 0, 1, 0] =
      some (uniformQ 1 3 0 + uniformQ (-(1 / 5)) (3 / 10) 0 +
          (if (1 : ℚ) / 20 ≤ 1 then 0 else uniformQ 1 3 0),
        if (1 : ℚ) / 20 ≤ 1 then [(0 : ℚ)] else []) ∧
    (1 : ℚ) - 1 / 5 ≤
      uniformQ 1 3 0 + uniformQ (-(1 / 5)) (3 / 10) 0 +
        (if (1 : ℚ) / 20 ≤ 1 then 0 else uniformQ 1 3 0) ∧
    uniformQ 1 3 0 + uniformQ (-(1 / 5)) (3 / 10) 0 +
        (if (1 : ℚ) / 20 ≤ 1 then 0 else uniformQ 1 3 0) ≤
      (3 : ℚ) + 3 / 10 + 3 :=
  realistic_wait_formula ⟨1, 3⟩ 0 0 1 0 [] (by norm_num) (by norm_num)
    (by norm_num) (by norm_num) (by norm_num) (by norm_num) (by norm_num)

/-- C9: the scroll loop stops exactly at the first re-measurement that
equals the previous measurement, and for every page whose height sequence
is eventually constant the loop terminates with at least one scroll
issued. -/
theorem scroll_to_bottom_fixed_point :
    (∀ (h : Nat → Nat) (fuel n : Nat),
      scroll_to_bottom h fuel = some n →
      1 ≤ n ∧ h n = h (n - 1) ∧ ∀ m, 1 ≤ m → m < n → h m ≠ h (m - 1)) ∧
    (∀ (h : Nat → Nat) (N : Nat), (∀ m, N ≤ m → h m = h N) →
      ∃ fuel n, scroll_to_bottom h fuel = some n ∧ 1 ≤ n) := by
  constructor
  · intro h fuel n hrun
    exact scrollLoop_sound h fuel 1 n (le_refl 1)
      (by simpa [scroll_to_bottom] using hrun)
  · intro h N hconst
    have hj : h (N + 1) = h ((N + 1) - 1) := by
      have h1 : h (N + 1) = h N := hconst (N + 1) (by omega)
      simpa using h1
    obtain ⟨n, hn⟩ := scrollLoop_complete h (N + 1) 1 (le_refl 1)
      ⟨N + 1, by omega, by omega, hj⟩
    refine ⟨N + 1, n, by simpa [scroll_to_bottom] using hn, ?_⟩
    exact (scrollLoop_sound h (N + 1) 1 n (le_refl 1) hn).1

/-- C9 witness: the fixed-point behaviour on the sample page that grows
three times and then stabilizes: the loop reports four scrolls, the fourth
re-measurement repeats the third, and termination follows from eventual
constancy. -/
theorem scroll_to_bottom_fixed_point_witness :
    (sampleHeights 4 = sampleHeights (4 - 1)) ∧
    (∃ fuel n, scroll_to_bottom sampleHeights fuel = some n ∧ 1 ≤ n) :=
  ⟨(scroll_to_bottom_fixed_point.1 sampleHeights 10 4 (by decide)).2.1,
   scroll_to_bottom_fixed_point.2 sampleHeights 3
     (fun m hm => by unfold sampleHeights; omega)⟩

/-- C10: validating the model dump of any ListingId (whose string fields are
whitespace-stripped, as construction guarantees) through from_dict succeeds
and reproduces the object, because from_dict removes the computed id and the
document-store key before the extra-field-forbidding validation; the
computed id always equals source, colon, source id. -/
theorem listing_id_roundtrip (x : ListingId)
    (hs : pyStrip x.source = x.source) (hsi : pyStrip x.source_id = x.source_id)
    (ht : pyStrip x.title = x.title) (hu : pyStrip x.url = x.url) :
    ListingId.from_dict (ListingId.model_dump x) = Except.ok x ∧
    x.id = x.source ++ ":" ++ x.source_id := by
  obtain ⟨s, si, t, u, f⟩ := x
  refine ⟨?_, rfl⟩
  simp only [ListingId.from_dict, ListingId.model_dump, ListingId.model_validate] at *
  simp [hs, hsi, ht, hu]

/-- C10 witness: the round trip at a concrete ListingId. -/
theorem listing_id_roundtrip_witness :
    ListingId.from_dict
        (ListingId.model_dump ⟨"immobiliare", "123", "Casa", "https://x", some 5⟩) =
      Except.ok ⟨"immobiliare", "123", "Casa", "https://x", some 5⟩ ∧
    ListingId.id ⟨"immobiliare", "123", "Casa", "https://x", some 5⟩ =
      "immobiliare" ++ ":" ++ "123" :=
  listing_id_roundtrip ⟨"immobiliare", "123", "Casa", "https://x", some 5⟩
    rfl rfl rfl rfl

end QuantEstate
